import Mathlib

/-!
Verification of the capture-orchestration core of the `rpi` repository.

The Python sources under `scan_api/`, `camera_view/` and `triple_cam/` are
shallowly embedded below: pure helpers become Lean functions, the stateful
camera / serial code becomes explicit state passing over small state types,
and code that can raise becomes `Except`-valued.  Machine floats that only
ever carry small half-integers (the crop arithmetic) are embedded exactly
over `Int`; wall-clock time is embedded as natural-number ticks (serial
timeouts) or rationals (stream throttling).
-/

/-! Source section: Shared Python-string helpers (bytes.strip/lower, str.strip/lower) -/

/-- ASCII whitespace test used by Python `str.strip` on the inputs that occur here. -/
def isSpaceChar (c : Char) : Bool := c = ' ' || c = '\t' || c = '\n' || c = '\r'

/-- Python `s.strip()` restricted to ASCII whitespace. -/
def pyStrip (s : String) : String :=
  String.mk (((s.data.dropWhile isSpaceChar).reverse.dropWhile isSpaceChar).reverse)

/-- Python `s.lower()` (ASCII case fold, which covers every name compared here). -/
def pyLower (s : String) : String := String.mk (s.data.map Char.toLower)

/-- Python `s.capitalize()`: first character upper-cased, the rest lower-cased. -/
def pyCapitalize (s : String) : String :=
  String.mk (match s.data with
    | [] => []
    | c :: cs => Char.toUpper c :: cs.map Char.toLower)

/-! Source section: Data model for Python values flowing through `set_controls`

`PyVal` covers the value shapes the control dictionaries carry: `None`,
strings, ints, bools, floats (embedded as exact rationals) and libcamera
enum objects (identified by their enum family and member name).  Python
`bool` is a subtype of `int`; the `isinstance(v, int)` branches below
therefore also accept `vbool`. -/

inductive PyVal
  | vnone
  | vstr (s : String)
  | vint (n : ℤ)
  | vbool (b : Bool)
  | vfloat (q : ℚ)
  | venum (family member : String)
deriving DecidableEq

/-- Digit test for the decimal parsers. -/
def isDigitChar (c : Char) : Bool := '0' ≤ c && c ≤ '9'

/-- Value of a decimal digit character. -/
def digitVal (c : Char) : ℕ := c.toNat - 48

/-- Decimal digits to a natural number, most significant first. -/
def natOfDigits (l : List Char) : ℕ := l.foldl (fun acc c => acc * 10 + digitVal c) 0

/-- Python `float(s)` on plain decimal literals: optional sign, integer part,
optional fractional part.  (Exponents/`inf`/`nan` are out of scope: no code
path in this repository feeds them to a control.) -/
def ratOfString? (s : String) : Option ℚ :=
  let cs := s.data
  let neg := cs.head? = some ('-')
  let body := if cs.head? = some ('-') || cs.head? = some ('+') then cs.drop 1 else cs
  let ip := body.takeWhile isDigitChar
  let rest := body.dropWhile isDigitChar
  let fp? : Option (List Char) :=
    if rest.isEmpty then some []
    else if rest.head? = some ('.') && (rest.drop 1).all isDigitChar then some (rest.drop 1)
    else none
  match fp? with
  | none => none
  | some fp =>
    if ip.isEmpty && fp.isEmpty then none
    else
      let mag : ℚ := (natOfDigits ip : ℚ) + (natOfDigits fp : ℚ) / ((10 : ℚ) ^ fp.length)
      some (if neg then -mag else mag)

/-- Truncation toward zero, the behaviour of Python `int()` on a float. -/
def truncQ (q : ℚ) : ℤ := Int.tdiv q.num q.den

/-- Python `int(v)`: fails (raises) on `None`, enum objects and non-integer
strings; truncates floats toward zero. -/
def pyIntE (v : PyVal) : Except Unit ℤ :=
  match v with
  | .vnone => .error ()
  | .vint n => .ok n
  | .vbool b => .ok (if b then 1 else 0)
  | .vfloat q => .ok (truncQ q)
  | .vstr s => match s.toInt? with
    | some n => .ok n
    | none => .error ()
  | .venum _ _ => .error ()

/-- Python `float(v)`: fails on `None`, enum objects and non-numeric strings. -/
def pyFloatE (v : PyVal) : Except Unit ℚ :=
  match v with
  | .vnone => .error ()
  | .vint n => .ok n
  | .vbool b => .ok (if b then 1 else 0)
  | .vfloat q => .ok q
  | .vstr s => match ratOfString? s with
    | some q => .ok q
    | none => .error ()
  | .venum _ _ => .error ()

/-- Python `bool(v)` (total). -/
def pyBool (v : PyVal) : Bool :=
  match v with
  | .vnone => false
  | .vint n => n ≠ 0
  | .vbool b => b
  | .vfloat q => q ≠ 0
  | .vstr s => ¬ s.isEmpty
  | .venum _ _ => true

/-- The device control dictionary being built by `set_controls` (`m` in the
source): an insertion-ordered string-keyed dictionary. -/
def DevMap : Type := List (String × PyVal)

instance : DecidableEq DevMap := inferInstanceAs (DecidableEq (List (String × PyVal)))

/-- Python dict assignment `m[k] = v`: overwrite the existing key in place or
append a fresh one. -/
def dictSet (m : DevMap) (k : String) (v : PyVal) : DevMap :=
  match m with
  | [] => [(k, v)]
  | (k2, v2) :: rest => if k2 = k then (k, v) :: rest else (k2, v2) :: dictSet rest k v

namespace ScanApi

/-! Source section: `scan_api/camera.py` — `CameraController._af_mode_value` and friends

These model the repository running with `libcamera.controls` importable and
every referenced enum member present (the deployment configuration the spec
describes); the `controls is None` fallback branches are therefore not taken. -/

/-- Model of `CameraController._af_mode_value`: known names map to the enum, any other
value — including an unrecognized string — is returned unchanged. -/
def af_mode_value (v : PyVal) : PyVal :=
  match v with
  | .vstr s =>
    let name := pyLower (pyStrip s)
    if name = "manual" then .venum ("AfModeEnum") ("Manual")
    else if name = "auto" then .venum ("AfModeEnum") ("Auto")
    else if name = "continuous" then .venum ("AfModeEnum") ("Continuous")
    else v
  | _ => v

/-- Model of `CameraController._af_trigger_value`: same shape as `_af_mode_value`. -/
def af_trigger_value (v : PyVal) : PyVal :=
  match v with
  | .vstr s =>
    let name := pyLower (pyStrip s)
    if name = "start" then .venum ("AfTriggerEnum") ("Start")
    else if name = "cancel" then .venum ("AfTriggerEnum") ("Cancel")
    else v
  | _ => v

/-- Model of `CameraController._awb_mode_value`: ints (and bools, which are Python
ints) pass through, known names map to the enum, an unknown string yields
Python `None`, any other value passes through. -/
def awb_mode_value (v : PyVal) : Option PyVal :=
  match v with
  | .vint _ => some v
  | .vbool _ => some v
  | .vstr s =>
    let name := pyLower (pyStrip s)
    if name = "auto" then some (.venum ("AwbModeEnum") ("Auto"))
    else if name = "incandescent" then some (.venum ("AwbModeEnum") ("Incandescent"))
    else if name = "tungsten" then some (.venum ("AwbModeEnum") ("Tungsten"))
    else if name = "fluorescent" then some (.venum ("AwbModeEnum") ("Fluorescent"))
    else if name = "indoor" then some (.venum ("AwbModeEnum") ("Indoor"))
    else if name = "daylight" then some (.venum ("AwbModeEnum") ("Daylight"))
    else if name = "cloudy" then some (.venum ("AwbModeEnum") ("Cloudy"))
    else if name = "shade" then some (.venum ("AwbModeEnum") ("Shade"))
    else none
  | _ => some v

/-- Model of `CameraController._nr_mode_value`: same shape as `_awb_mode_value`, over
the draft noise-reduction enum. -/
def nr_mode_value (v : PyVal) : Option PyVal :=
  match v with
  | .vint _ => some v
  | .vbool _ => some v
  | .vstr s =>
    let name := pyLower (pyStrip s)
    if name = "off" then some (.venum ("NoiseReductionModeEnum") ("Off"))
    else if name = "fast" then some (.venum ("NoiseReductionModeEnum") ("Fast"))
    else if name = "high_quality" then some (.venum ("NoiseReductionModeEnum") ("HighQuality"))
    else if name = "minimal" then some (.venum ("NoiseReductionModeEnum") ("Minimal"))
    else if name = "zsl" then some (.venum ("NoiseReductionModeEnum") ("ZSL"))
    else none
  | _ => some v

/-- One iteration of the `for k, v in ctrl.items()` loop of
`CameraController.set_controls` in `scan_api/camera.py`: extends the device
map `m`, or raises (`.error`) when a conversion such as `int(v)` does. -/
def applyEntry (m : DevMap) (k : String) (v : PyVal) : Except Unit DevMap :=
  if v = .vnone then .ok m
  else if k = "exposure_time" then (pyIntE v).map (fun n => dictSet m ("ExposureTime") (.vint n))
  else if k = "analogue_gain" || k = "analog_gain" then
    (pyFloatE v).map (fun q => dictSet m ("AnalogueGain") (.vfloat q))
  else if k = "ae_enable" then .ok (dictSet m ("AeEnable") (.vbool (pyBool v)))
  else if k = "awb_enable" then .ok (dictSet m ("AwbEnable") (.vbool (pyBool v)))
  else if k = "ev" || k = "exposure_value" then
    (pyFloatE v).map (fun q => dictSet m ("ExposureValue") (.vfloat q))
  else if k = "lens_position" then
    (pyFloatE v).map (fun q => dictSet m ("LensPosition") (.vfloat q))
  else if k = "awb_mode" then
    match awb_mode_value v with
    | none => .ok m
    | some w => .ok (dictSet m ("AwbMode") w)
  else if k = "noise_reduction_mode" then
    match nr_mode_value v with
    | none => .ok m
    | some w => .ok (dictSet m ("NoiseReductionMode") w)
  else if k = "af_mode" then .ok (dictSet m ("AfMode") (af_mode_value v))
  else if k = "af_trigger" then .ok (dictSet m ("AfTrigger") (af_trigger_value v))
  else if k = "brightness" || k = "contrast" || k = "saturation" || k = "sharpness" then
    (pyFloatE v).map (fun q => dictSet m (pyCapitalize k) (.vfloat q))
  else .ok (dictSet m k v)

/-- The whole translation loop of `set_controls`. -/
def set_controls_fold : List (String × PyVal) → DevMap → Except Unit DevMap
  | [], m => .ok m
  | (k, v) :: rest, m =>
    match applyEntry m k v with
    | .error e => .error e
    | .ok m2 => set_controls_fold rest m2

/-- Model of `CameraController.set_controls` in `scan_api/camera.py`.  Result `none`
means the function returned without touching the device (`if not m: return`);
`some m` means `picam2.set_controls(m)` was invoked with the translated map. -/
def set_controls (ctrl : List (String × PyVal)) : Except Unit (Option DevMap) :=
  match set_controls_fold ctrl [] with
  | .error e => .error e
  | .ok m => if m.isEmpty then .ok none else .ok (some m)

/-! Source section: `scan_api/camera.py` — capture state machine (`CameraController`) -/

/-- Which device configuration is active. -/
inductive CamMode
  | preview
  | still
deriving DecidableEq

/-- The session-relevant device state: active configuration plus whether the
continuous MJPEG encode into the `StreamingOutput` is running. -/
structure CamDevState where
  mode : CamMode
  recording : Bool
deriving DecidableEq

/-- Streaming mode as the spec uses the word: preview configuration active and
continuous recording running. -/
def streaming : CamDevState := { mode := .preview, recording := true }

/-- Outcome of the capture step (step 3) inside `capture_jpeg_bytes`: the
in-memory `capture_file(buf, format)` call may succeed, fall back through
`TypeError` to the positional form, fall back through a general exception to a
temporary file that is read back, or fail even there (the temporary file is
unlinked in that function's own `finally`). -/
inductive StillCaptureOutcome
  | memOk
  | memTypeErrorThenOk
  | memErrFileOk
  | memErrFileErr
deriving DecidableEq

/-- Model of `CameraController.capture_jpeg_bytes`: stop recording, switch to the still
configuration, capture inside `try/finally`, and in the `finally` switch back
to preview and restart recording — so restoration runs on every exit path, and
a capture failure propagates as `.error` only afterwards. -/
def capture_jpeg_bytes (s : CamDevState) (cap : StillCaptureOutcome) :
    CamDevState × Except Unit Unit :=
  let s1 : CamDevState := { s with recording := false }
  let s2 : CamDevState := { s1 with mode := .still }
  let res : Except Unit Unit :=
    match cap with
    | .memOk => .ok ()
    | .memTypeErrorThenOk => .ok ()
    | .memErrFileOk => .ok ()
    | .memErrFileErr => .error ()
  let s3 : CamDevState := { s2 with mode := .preview }
  let s4 : CamDevState := { s3 with recording := true }
  (s4, res)

/-- Model of `CameraController.capture_file`: stop recording, switch to the still
configuration, then `picam2.capture_file(path)` with NO try/finally — when
that capture raises, the function propagates the exception without switching
back to preview or restarting recording. -/
def capture_file (s : CamDevState) (captureOk : Bool) : CamDevState × Except Unit Unit :=
  let s1 : CamDevState := { s with recording := false }
  let s2 : CamDevState := { s1 with mode := .still }
  if captureOk then
    let s3 : CamDevState := { s2 with mode := .preview }
    let s4 : CamDevState := { s3 with recording := true }
    (s4, .ok ())
  else
    (s2, .error ())

/-! Source section: `scan_api/camera.py` — `StreamingOutput` frame broadcast

The broadcast is embedded as a transition system over interleavings of the
three primitive steps the CPython code performs under
`StreamingOutput.condition`: a producer `write` (store frame, `notify_all`), a
consumer entering `condition.wait()`, and a consumer returning from `wait()`
and reading `output.frame` while still holding the lock.  `Condition.wait()`
without timeout returns only after a `notify_all` issued after the wait
began, which is exactly the `wake` precondition below. -/

/-- Status of one consumer thread.  `since`/`got` count publishes: `since` is
the publish count when the consumer entered `wait()`, `got` the index of the
frame it read on waking (frame `i` is the `i`-th `write`). -/
inductive WStatus
  | idle
  | blocked (since : ℕ)
  | notified (since : ℕ)
  | done (since : ℕ) (got : ℕ)
deriving DecidableEq

/-- Effect of `notify_all` on one consumer. -/
def notifyAll (st : WStatus) : WStatus :=
  match st with
  | .blocked c => .notified c
  | st => st

/-- Broadcast state: number of frames written so far (the slot holds the
latest, frame number `pubCount`) and the per-consumer statuses. -/
structure BCState where
  pubCount : ℕ
  waiters : List (ℕ × WStatus)
deriving DecidableEq

/-- Fresh broadcast: no frame yet, no consumer waiting. -/
def initBC : BCState := { pubCount := 0, waiters := [] }

/-- Status lookup, `.idle` for unknown consumers. -/
def wlookup : List (ℕ × WStatus) → ℕ → WStatus
  | [], _ => .idle
  | (w2, st) :: rest, w => if w2 = w then st else wlookup rest w

/-- Status update. -/
def wset : List (ℕ × WStatus) → ℕ → WStatus → List (ℕ × WStatus)
  | [], w, st => [(w, st)]
  | (w2, st2) :: rest, w, st =>
    if w2 = w then (w, st) :: rest else (w2, st2) :: wset rest w st

/-- The three primitive interleaving events. -/
inductive BCEvent
  | publish
  | beginWait (w : ℕ)
  | wake (w : ℕ)
deriving DecidableEq

/-- One step of the broadcast.  `publish` is `StreamingOutput.write`: store
the new frame and `notify_all`.  `beginWait` is a consumer entering
`condition.wait()` (from idle, or looping after a previous frame).  `wake` is
that consumer returning from `wait()` — possible only once notified — and
reading the then-current `output.frame`. -/
def bcStep (s : BCState) : BCEvent → Option BCState
  | .publish =>
    some { pubCount := s.pubCount + 1,
           waiters := s.waiters.map (fun p => (p.1, notifyAll p.2)) }
  | .beginWait w =>
    match wlookup s.waiters w with
    | .idle => some { s with waiters := wset s.waiters w (.blocked s.pubCount) }
    | .done _ _ => some { s with waiters := wset s.waiters w (.blocked s.pubCount) }
    | _ => none
  | .wake w =>
    match wlookup s.waiters w with
    | .notified c => some { s with waiters := wset s.waiters w (.done c s.pubCount) }
    | _ => none

/-- Run a list of events from a state. -/
def bcExec : BCState → List BCEvent → Option BCState
  | s, [] => some s
  | s, e :: es =>
    match bcStep s e with
    | none => none
    | some s2 => bcExec s2 es

/-- The inductive invariant tying each consumer status to the publish count. -/
def wInv (n : ℕ) : WStatus → Prop
  | .idle => True
  | .blocked c => c ≤ n
  | .notified c => c < n
  | .done c g => c < g ∧ g ≤ n

/-- Broadcast invariant: every consumer status respects `wInv`. -/
def bcInv (s : BCState) : Prop := ∀ w, wInv s.pubCount (wlookup s.waiters w)

/-! Source section: `scan_api/camera.py` — `crop_from_center` -/

/-- A decoded PIL image, reduced to its size (the crop geometry only reads
`img.size`). -/
structure PILImage where
  w : ℕ
  h : ℕ
deriving DecidableEq

/-- A crop rectangle. -/
structure Rect where
  left : ℤ
  top : ℤ
  right : ℤ
  bottom : ℤ
deriving DecidableEq

/-- The rectangle `crop_from_center` computes before its degeneracy test: the
request is anchored at the image centre plus the offsets and clamped to the
image bounds.  `int(cx - cw/2 + ox)` is float truncation toward zero; on the
half-integers that expression produces it equals
`(2*cx - cw + 2*ox).tdiv 2`. -/
def clampedRect (img : PILImage) (cw ch ox oy : ℤ) : Rect :=
  let w : ℤ := img.w
  let h : ℤ := img.h
  let cx : ℤ := w / 2
  let cy : ℤ := h / 2
  let left := Int.tdiv (2 * cx - cw + 2 * ox) 2
  let top := Int.tdiv (2 * cy - ch + 2 * oy) 2
  let right := left + cw
  let bottom := top + ch
  { left := max 0 (min left w)
    top := max 0 (min top h)
    right := max 0 (min right w)
    bottom := max 0 (min bottom h) }

/-- Result of `crop_from_center`: either `img.copy()` (degenerate clamped
rectangle) or `img.crop(rect)`. -/
inductive CropResult
  | copyOriginal
  | cropped (r : Rect)
deriving DecidableEq

/-- Model of `crop_from_center` in `scan_api/camera.py`. -/
def crop_from_center (img : PILImage) (cw ch ox oy : ℤ) : CropResult :=
  let r := clampedRect img cw ch ox oy
  if r.right ≤ r.left ∨ r.bottom ≤ r.top then .copyOriginal else .cropped r

/-! Source section: `scan_api/camera.py` — `mjpeg_stream` throttling

The generator body is a fold over the sequence of condition-variable wakeups:
each wakeup yields the then-current `output.frame` (possibly `None`) at a
wall-clock instant.  Only the yielded timestamps matter for the throttle. -/

/-- Model of `min_interval = 1.0 / max(1, int(fps))` (the parameter is already an int). -/
def min_interval (fps : ℤ) : ℚ := 1 / ((max 1 fps : ℤ) : ℚ)

/-- The times at which `mjpeg_stream` yields a frame, given the throttle
interval, the time of the last yielded frame (`last`, initially `0.0`), and
the arriving `(now, frame)` wakeups: a `None` frame is skipped, a frame
arriving less than the interval after `last` is skipped, otherwise the frame
is yielded and `last` becomes `now`. -/
def mjpeg_yield_times (minI : ℚ) : ℚ → List (ℚ × Option (List ℕ)) → List ℚ
  | _, [] => []
  | last, (now, f) :: rest =>
    match f with
    | none => mjpeg_yield_times minI last rest
    | some _ =>
      if now - last < minI then mjpeg_yield_times minI last rest
      else now :: mjpeg_yield_times minI now rest

/-- Adjacent yields are at least `minI` apart, measured from `last`. -/
def Spaced (minI : ℚ) : ℚ → List ℚ → Prop
  | _, [] => True
  | last, t :: ts => minI ≤ t - last ∧ Spaced minI t ts

/-! Source section: `scan_api/camera.py` / `scan_api/app.py` — capture file naming -/

/-- A `datetime.now()` value, to the fields the format strings print. -/
structure PyTimestamp where
  year : ℕ
  month : ℕ
  day : ℕ
  hour : ℕ
  minute : ℕ
  second : ℕ
  micro : ℕ
deriving DecidableEq

/-- Two zero-padded decimal digits (the value is within range for every
`datetime` field formatted this way). -/
def pad2 (n : ℕ) : List Char := [Nat.digitChar (n / 10 % 10), Nat.digitChar (n % 10)]

/-- Four zero-padded decimal digits (`%Y`). -/
def pad4 (n : ℕ) : List Char :=
  [Nat.digitChar (n / 1000 % 10), Nat.digitChar (n / 100 % 10),
   Nat.digitChar (n / 10 % 10), Nat.digitChar (n % 10)]

/-- Six zero-padded decimal digits (`%f`, microseconds). -/
def pad6 (n : ℕ) : List Char :=
  [Nat.digitChar (n / 100000 % 10), Nat.digitChar (n / 10000 % 10),
   Nat.digitChar (n / 1000 % 10), Nat.digitChar (n / 100 % 10),
   Nat.digitChar (n / 10 % 10), Nat.digitChar (n % 10)]

/-- The date-and-time prefix of `"%Y%m%d_%H%M%S_%f"`, everything before the
microseconds. -/
def tsPrefixChars (t : PyTimestamp) : List Char :=
  pad4 t.year ++ pad2 t.month ++ pad2 t.day ++ ['_'] ++
    pad2 t.hour ++ pad2 t.minute ++ pad2 t.second ++ ['_']

/-- Model of `datetime.now().strftime("%Y%m%d_%H%M%S_%f")`. -/
def strftime_full (t : PyTimestamp) : String :=
  String.mk (tsPrefixChars t ++ pad6 t.micro)

/-- Model of `datetime.now().strftime("%H%M%S_%f")` (the `/capture` and macro save
paths in `scan_api/app.py`). -/
def strftime_hms (t : PyTimestamp) : String :=
  String.mk (pad2 t.hour ++ pad2 t.minute ++ pad2 t.second ++ ['_'] ++ pad6 t.micro)

/-- Filename built by `CameraController.capture_file` (and identically by
`capture_still` in `camera_view/camera_manager.py`). -/
def capture_file_name (label : String) (t : PyTimestamp) : String :=
  label ++ "_" ++ strftime_full t ++ ".jpg"

/-- Filename built by the HTTP `/capture?save=1` endpoint and by the
move-and-capture macro in `scan_api/app.py` when they persist the transformed
payload. -/
def endpoint_capture_name (t : PyTimestamp) : String :=
  "img_" ++ strftime_hms t ++ ".jpg"

/-! Source section: `scan_api/serial_io.py` — `SerialManager`

Transports are numbered by creation order; `SerialWorld.openIds` is the set of
transports currently open at the OS level, and a manager owns at most the one
transport `ser` points to. -/

/-- The world of serial transports. -/
structure SerialWorld where
  nextId : ℕ
  openIds : List ℕ
deriving DecidableEq

/-- Model of `SerialManager`: the `_ser` field. -/
structure SerialManager where
  ser : Option ℕ
deriving DecidableEq

/-- Model of `SerialManager.connect` (pyserial importable, open succeeds): build a
fresh open transport, sleep for the controller reset, then install it as
`self._ser`.  The previously held transport — if any — is neither flushed nor
closed. -/
def SerialManager.connect (w : SerialWorld) (_sm : SerialManager) :
    SerialWorld × SerialManager :=
  ({ nextId := w.nextId + 1, openIds := w.nextId :: w.openIds }, { ser := some w.nextId })

/-- Model of `SerialManager.disconnect`: flush (best effort), close, drop the
reference. -/
def SerialManager.disconnect (w : SerialWorld) (sm : SerialManager) :
    SerialWorld × SerialManager :=
  match sm.ser with
  | none => (w, { ser := none })
  | some t => ({ w with openIds := w.openIds.filter (fun i => i ≠ t) }, { ser := none })

/-- Model of `SerialManager.is_connected`: a transport is held and it is open. -/
def SerialManager.is_connected (w : SerialWorld) (sm : SerialManager) : Bool :=
  match sm.ser with
  | none => false
  | some t => t ∈ w.openIds

/-! Source section: `scan_api/serial_io.py` — the `ok` acknowledgment protocol

Lines are byte lists, exactly as pyserial returns them.  `lines k` is the
`k`-th `ser.readline()` result (`none` = the 1-second device read timeout
expired with no data, which Python sees as `b""`); `dur k` is how long that
read took beyond one clock tick.  Every read takes at least one tick — the
transport read blocks on the device timeout and no call returns in zero
time — which is what makes the wall-clock loop terminate. -/

/-- Bytewise ASCII lower-casing, Python `bytes.lower()`. -/
def lowerByte (b : ℕ) : ℕ := if 65 ≤ b ∧ b ≤ 90 then b + 32 else b

/-- ASCII whitespace for `bytes.strip()`. -/
def isWsByte (b : ℕ) : Bool := b = 32 || b = 9 || b = 10 || b = 13 || b = 11 || b = 12

/-- Python `line.strip()` on bytes. -/
def stripBytes (l : List ℕ) : List ℕ :=
  ((l.dropWhile isWsByte).reverse.dropWhile isWsByte).reverse

/-- Acknowledgment test: `line.strip().lower()` equals `b"ok"` or ends with `b" ok"` — the
acknowledgment test in `_read_until_ok`. -/
def isAckLine (l : List ℕ) : Bool :=
  let low := (stripBytes l).map lowerByte
  low = [111, 107] || List.isSuffixOf [32, 111, 107] low

/-- Outcome of `_read_until_ok`. -/
inductive ReadOutcome
  | ackOk
  | timedOut
deriving DecidableEq

/-- Model of `SerialManager._read_until_ok`, with wall-clock time made explicit:
starting at read index `k` and elapsed time `t`, loop while `t < timeout`,
reading a line (taking `dur k + 1` ticks), discarding empties and
informational lines, returning on an acknowledgment; once the bound is
reached raise `TimeoutError` (`.timedOut`).  Returns the outcome, the next
unconsumed read index, and the elapsed time on exit. -/
def read_until_ok (lines : ℕ → Option (List ℕ)) (dur : ℕ → ℕ) (timeout : ℕ)
    (k t : ℕ) : ReadOutcome × ℕ × ℕ :=
  if h : t < timeout then
    match lines k with
    | none => read_until_ok lines dur timeout (k + 1) (t + dur k + 1)
    | some l =>
      if isAckLine l then (.ackOk, k + 1, t + dur k + 1)
      else read_until_ok lines dur timeout (k + 1) (t + dur k + 1)
  else (.timedOut, k, t)
  termination_by timeout - t
  decreasing_by all_goals omega

/-- Model of `SerialManager.send_commands` under the lock: write each command in turn
(recorded in the returned trace) and, when `wait_ok`, block on
`_read_until_ok`; a timeout propagates immediately, abandoning the remaining
commands and never re-sending the failed one.  Returns the write trace and
whether all commands were acknowledged. -/
def send_commands (lines : ℕ → Option (List ℕ)) (dur : ℕ → ℕ) (timeout : ℕ)
    (wait_ok : Bool) : List String → ℕ → List String × Bool
  | [], _ => ([], true)
  | c :: rest, k =>
    if wait_ok then
      match read_until_ok lines dur timeout k 0 with
      | (.ackOk, k2, _) =>
        let r := send_commands lines dur timeout wait_ok rest k2
        (c :: r.1, r.2)
      | (.timedOut, _, _) => ([c], false)
    else
      let r := send_commands lines dur timeout wait_ok rest k
      (c :: r.1, r.2)

/-! Source section: `scan_api/app.py` — the move-settle-capture macro -/

/-- The G-code lines the macro builds (coordinates as exact rationals, the
`%.4f`-rendered floats of the source). -/
inductive GCmd
  | g90
  | g0xy (feed : ℤ) (x y : Option ℚ)
  | g0z (feed : ℤ) (z : ℚ)
  | m400
deriving DecidableEq

/-- The command list the macro sends: `G90`, one XY move when x or y is
given, one Z move when z is given, `M400` when waiting for completion. -/
def macro_cmds (x y z : Option ℚ) (feed_xy feed_z : ℤ) (wait : Bool) : List GCmd :=
  let base : List GCmd := [.g90]
  let withXY := if x.isSome || y.isSome then base ++ [.g0xy feed_xy x y] else base
  let withZ :=
    match z with
    | some zv => withXY ++ [.g0z feed_z zv]
    | none => withXY
  if wait then withZ ++ [.m400] else withZ

/-- Camera-side effects the macro can perform, in program order. -/
inductive CamAction
  | setControls
  | settleSleep
  | stillCapture
  | saveFile
deriving DecidableEq

/-- Outcomes of the external steps of one macro invocation:
`serialConnect` is `_ensure_serial()` (connect plus the `M115/G21/G90` init),
`sendCmds` the `send_commands(cmds, wait_ok=True)` call, `stillOk` whether
`capture_jpeg_bytes` returns rather than raises. -/
structure MacroEnv where
  serialConnect : Except String Unit
  sendCmds : Except String Unit
  stillOk : Bool

/-- The request body fields the control flow depends on. -/
structure MacroReq where
  x : Option ℚ
  y : Option ℚ
  z : Option ℚ
  feed_xy : ℤ
  feed_z : ℤ
  wait : Bool
  settle : ℚ
  hasCamControls : Bool
  save : Bool

/-- The `/macro/move_and_capture` handler in `scan_api/app.py`, reduced to its
sequencing: ensure serial, build and send the move commands, then — only
past that point — apply camera controls (when given), sleep the settle delay
(when positive), capture, and save (when requested).  Returns the handler
outcome (the sent command list on success) and the camera actions performed. -/
def move_and_capture (req : MacroReq) (env : MacroEnv) :
    Except String (List GCmd) × List CamAction :=
  match env.serialConnect with
  | .error e => (.error e, [])
  | .ok _ =>
    let cmds := macro_cmds req.x req.y req.z req.feed_xy req.feed_z req.wait
    match env.sendCmds with
    | .error e => (.error e, [])
    | .ok _ =>
      let acts1 := if req.hasCamControls then [CamAction.setControls] else []
      let acts2 := acts1 ++ (if 0 < req.settle then [CamAction.settleSleep] else [])
      if env.stillOk then
        let acts3 := acts2 ++ [CamAction.stillCapture]
        let acts4 := acts3 ++ (if req.save then [CamAction.saveFile] else [])
        (.ok cmds, acts4)
      else
        (.error ("capture failed"), acts2 ++ [CamAction.stillCapture])

end ScanApi

namespace CameraView

/-! Source section: `camera_view/camera_manager.py` — `CameraController.set_controls`

This variant translates only `af_mode`/`af_trigger` through the enum tables;
`awb_mode` and `noise_reduction_mode` are passed to the device raw. -/

/-- Model of `_af_mode_value` (identical to the scan_api one). -/
def af_mode_value (v : PyVal) : PyVal :=
  match v with
  | .vstr s =>
    let name := pyLower (pyStrip s)
    if name = "manual" then .venum ("AfModeEnum") ("Manual")
    else if name = "auto" then .venum ("AfModeEnum") ("Auto")
    else if name = "continuous" then .venum ("AfModeEnum") ("Continuous")
    else v
  | _ => v

/-- Model of `_af_trigger_value` (identical to the scan_api one). -/
def af_trigger_value (v : PyVal) : PyVal :=
  match v with
  | .vstr s =>
    let name := pyLower (pyStrip s)
    if name = "start" then .venum ("AfTriggerEnum") ("Start")
    else if name = "cancel" then .venum ("AfTriggerEnum") ("Cancel")
    else v
  | _ => v

/-- One iteration of the translation loop of `set_controls` in
`camera_view/camera_manager.py`. -/
def applyEntry (m : DevMap) (k : String) (v : PyVal) : Except Unit DevMap :=
  if v = .vnone then .ok m
  else if k = "exposure_time" then (pyIntE v).map (fun n => dictSet m ("ExposureTime") (.vint n))
  else if k = "analogue_gain" || k = "analog_gain" then
    (pyFloatE v).map (fun q => dictSet m ("AnalogueGain") (.vfloat q))
  else if k = "ae_enable" then .ok (dictSet m ("AeEnable") (.vbool (pyBool v)))
  else if k = "awb_enable" then .ok (dictSet m ("AwbEnable") (.vbool (pyBool v)))
  else if k = "ev" || k = "exposure_value" then
    (pyFloatE v).map (fun q => dictSet m ("ExposureValue") (.vfloat q))
  else if k = "lens_position" then
    (pyFloatE v).map (fun q => dictSet m ("LensPosition") (.vfloat q))
  else if k = "awb_mode" then .ok (dictSet m ("AwbMode") v)
  else if k = "af_mode" then .ok (dictSet m ("AfMode") (af_mode_value v))
  else if k = "af_trigger" then .ok (dictSet m ("AfTrigger") (af_trigger_value v))
  else if k = "brightness" || k = "contrast" || k = "saturation" || k = "sharpness" then
    (pyFloatE v).map (fun q => dictSet m (pyCapitalize k) (.vfloat q))
  else if k = "noise_reduction_mode" then .ok (dictSet m ("NoiseReductionMode") v)
  else .ok (dictSet m k v)

/-- The translation loop. -/
def set_controls_fold : List (String × PyVal) → DevMap → Except Unit DevMap
  | [], m => .ok m
  | (k, v) :: rest, m =>
    match applyEntry m k v with
    | .error e => .error e
    | .ok m2 => set_controls_fold rest m2

/-- Model of `CameraController.set_controls` in `camera_view/camera_manager.py`;
`none` means no device call (`if not m: return`). -/
def set_controls (ctrl : List (String × PyVal)) : Except Unit (Option DevMap) :=
  match set_controls_fold ctrl [] with
  | .error e => .error e
  | .ok m => if m.isEmpty then .ok none else .ok (some m)

end CameraView

namespace TripleCam

/-! Source section: `triple_cam/app.py` — `triple_snap` multi-camera capture

Each target id gets a thread running `ctrl.capture_still(CAPTURES_DIR)` and,
on success, storing `captured[cid] = path`.  A thread whose capture raises
dies with the exception swallowed by the threading module, leaving no entry.
After joining, the response lists only the entries of `captured`.
`capture cid = some fn` means cid's `capture_still` returned the file `fn`
inside the captures directory; `none` means it raised.  (Thread completion
order only permutes `captured`; membership, which is all the theorems use, is
order-independent, so ids order is used.) -/

/-- Directory the stills are saved into. -/
def capturesDir : String := "captures"

/-- One entry of the `pi` list in the response. -/
structure SnapResult where
  cam_id : String
  filename : String
  url : String
  path : String
deriving DecidableEq

/-- The JSON response, reduced to the fields the claim is about. -/
structure TripleSnapResponse where
  status : String
  pi : List SnapResult
deriving DecidableEq

/-- The `/api/triple_snap` fan-out/join and response assembly. -/
def triple_snap (cam_ids : List String) (capture : String → Option String) :
    TripleSnapResponse :=
  let results := cam_ids.filterMap (fun cid =>
    (capture cid).map (fun fn =>
      ({ cam_id := cid
         filename := fn
         url := "/captures/" ++ fn
         path := capturesDir ++ "/" ++ fn } : SnapResult)))
  { status := "ok", pi := results }

/-- A concrete capture outcome used as a test vector: the session with id
"1" raises inside its capture thread, the other sessions succeed. -/
def snapFail : String → Option String := fun cid =>
  if cid = "1" then none else some ("cam" ++ cid ++ ".jpg")

end TripleCam

/-! Theorems.  Each claim of the specification is settled below; shared
helper lemmas come first. -/

/-- Clamping into `[0, b]` really lands in `[0, b]`. -/
lemma clamp_bounds (x b : ℤ) (hb : 0 ≤ b) :
    0 ≤ max 0 (min x b) ∧ max 0 (min x b) ≤ b := by omega

/-- C1: the spec requires both still-capture operations to restore the
session to Streaming mode on every exit path.  `capture_jpeg_bytes` does
(its mode switch-back and recording restart sit in a `finally`), but
`capture_file` has no such cleanup: evaluated at the failing input — a
session in Streaming mode whose capture step raises — it leaves the device
stopped in the still configuration while the exception propagates. -/
theorem C1_capture_restoration :
    (∀ (s : ScanApi.CamDevState) (cap : ScanApi.StillCaptureOutcome),
        (ScanApi.capture_jpeg_bytes s cap).1 = ScanApi.streaming) ∧
    ScanApi.capture_file ScanApi.streaming false =
      ({ mode := .still, recording := false }, .error ()) ∧
    (ScanApi.capture_file ScanApi.streaming false).1 ≠ ScanApi.streaming := by
  refine ⟨fun s cap => rfl, rfl, ?_⟩
  decide

/-- C4 counterexample: a connected manager owning open transport 0 is asked
to connect again; the new transport 1 is installed while transport 0 is
still open — `connect` never closes the previously owned transport, refuting
the claimed tear-down-before-recreate. -/
theorem C4_reconnect_cex :
    (ScanApi.SerialManager.connect { nextId := 1, openIds := [0] } { ser := some 0 }).2.ser =
      some 1 ∧
    0 ∈ (ScanApi.SerialManager.connect { nextId := 1, openIds := [0] }
          { ser := some 0 }).1.openIds := by
  decide

/-- C4 amended: reconnecting installs the fresh transport as the new owned
one, but the previously owned transport stays open and is merely abandoned
(no longer referenced), not closed. -/
theorem C4_reconnect_leaves_old_open (w : ScanApi.SerialWorld) (sm : ScanApi.SerialManager)
    (t : ℕ) (hser : sm.ser = some t) (hopen : t ∈ w.openIds) (hfresh : t ≠ w.nextId) :
    (ScanApi.SerialManager.connect w sm).2.ser = some w.nextId ∧
    t ∈ (ScanApi.SerialManager.connect w sm).1.openIds ∧
    (ScanApi.SerialManager.connect w sm).2.ser ≠ some t := by
  refine ⟨rfl, List.mem_cons_of_mem _ hopen, ?_⟩
  intro hc
  exact hfresh (Option.some.inj hc).symm

/-- C4 witness: the amended statement evaluated on a world with one open
owned transport. -/
theorem C4_reconnect_leaves_old_open_witness :
    (ScanApi.SerialManager.connect { nextId := 1, openIds := [0] } { ser := some 0 }).2.ser =
      some 1 ∧
    0 ∈ (ScanApi.SerialManager.connect { nextId := 1, openIds := [0] }
          { ser := some 0 }).1.openIds ∧
    (ScanApi.SerialManager.connect { nextId := 1, openIds := [0] }
          { ser := some 0 }).2.ser ≠ some 0 :=
  C4_reconnect_leaves_old_open { nextId := 1, openIds := [0] } { ser := some 0 } 0 rfl
    (by decide) (by decide)

/-- C2 counterexample: three target ids with the middle session's capture
forced to fail.  The response carries only the two successful results — no
entry at all, hence no per-id error indicator, for the failed id — while the
claim requires an explicit failure indicator for each failed session. -/
theorem C2_triple_snap_cex :
    (TripleCam.triple_snap ["0", "1", "2"] TripleCam.snapFail).pi.length = 2 ∧
    (TripleCam.triple_snap ["0", "1", "2"] TripleCam.snapFail).pi.all
      (fun r => r.cam_id != "1") ∧
    (TripleCam.triple_snap ["0", "1", "2"] TripleCam.snapFail).status = "ok" := by
  decide

/-- C2 amended: a failing session never makes the whole batch fail (the
response is always assembled, with status `ok`), every listed result comes
from a session whose capture succeeded, and a failed session is silently
omitted — it contributes no entry, not an error indicator. -/
theorem C2_triple_snap_omits_failures (ids : List String) (capture : String → Option String) :
    (TripleCam.triple_snap ids capture).status = "ok" ∧
    (∀ r ∈ (TripleCam.triple_snap ids capture).pi,
        r.cam_id ∈ ids ∧ capture r.cam_id = some r.filename) ∧
    (∀ cid, capture cid = none →
        ∀ r ∈ (TripleCam.triple_snap ids capture).pi, r.cam_id ≠ cid) := by
  have hmem : ∀ r ∈ (TripleCam.triple_snap ids capture).pi,
      r.cam_id ∈ ids ∧ capture r.cam_id = some r.filename := by
    intro r hr
    simp only [TripleCam.triple_snap, List.mem_filterMap] at hr
    obtain ⟨cid, hcid, hmap⟩ := hr
    cases hcap : capture cid with
    | none => rw [hcap] at hmap; cases hmap
    | some fn =>
      rw [hcap] at hmap
      simp only [Option.map_some'] at hmap
      cases hmap
      exact ⟨hcid, by rw [hcap]⟩
  refine ⟨rfl, hmem, ?_⟩
  intro cid hnone r hr hcam
  have h2 := (hmem r hr).2
  rw [hcam, hnone] at h2
  cases h2

/-- C2 witness: the amended statement evaluated on the three-id, one-failure
vector: the batch succeeds and the failed id has no entry. -/
theorem C2_triple_snap_omits_failures_witness :
    (TripleCam.triple_snap ["0", "1", "2"] TripleCam.snapFail).status = "ok" ∧
    ({ cam_id := "0", filename := "cam0.jpg", url := "/captures/cam0.jpg",
       path := "captures/cam0.jpg" } : TripleCam.SnapResult).cam_id ≠ "1" :=
  ⟨(C2_triple_snap_omits_failures ["0", "1", "2"] TripleCam.snapFail).1,
   (C2_triple_snap_omits_failures ["0", "1", "2"] TripleCam.snapFail).2.2 ("1") (by decide)
     { cam_id := "0", filename := "cam0.jpg", url := "/captures/cam0.jpg",
       path := "captures/cam0.jpg" } (by decide)⟩

/-- C6: `crop_from_center` is total; whenever it crops, the rectangle is the
centre-anchored, offset, clamped one and lies inside the image bounds with
positive extent; whenever the clamped rectangle is degenerate it returns a
copy of the original image instead of failing. -/
theorem C6_crop_from_center_safe (img : ScanApi.PILImage) (cw ch ox oy : ℤ) :
    (∀ r : ScanApi.Rect, ScanApi.crop_from_center img cw ch ox oy = .cropped r →
        0 ≤ r.left ∧ r.left < r.right ∧ r.right ≤ (img.w : ℤ) ∧
        0 ≤ r.top ∧ r.top < r.bottom ∧ r.bottom ≤ (img.h : ℤ)) ∧
    (((ScanApi.clampedRect img cw ch ox oy).right ≤ (ScanApi.clampedRect img cw ch ox oy).left ∨
      (ScanApi.clampedRect img cw ch ox oy).bottom ≤ (ScanApi.clampedRect img cw ch ox oy).top) →
        ScanApi.crop_from_center img cw ch ox oy = .copyOriginal) ∧
    (¬ ((ScanApi.clampedRect img cw ch ox oy).right ≤ (ScanApi.clampedRect img cw ch ox oy).left ∨
        (ScanApi.clampedRect img cw ch ox oy).bottom ≤ (ScanApi.clampedRect img cw ch ox oy).top) →
        ScanApi.crop_from_center img cw ch ox oy =
          .cropped (ScanApi.clampedRect img cw ch ox oy)) := by
  have hw : (0 : ℤ) ≤ (img.w : ℤ) := Int.natCast_nonneg _
  have hh : (0 : ℤ) ≤ (img.h : ℤ) := Int.natCast_nonneg _
  by_cases hdeg :
      (ScanApi.clampedRect img cw ch ox oy).right ≤ (ScanApi.clampedRect img cw ch ox oy).left ∨
      (ScanApi.clampedRect img cw ch ox oy).bottom ≤ (ScanApi.clampedRect img cw ch ox oy).top
  · refine ⟨?_, fun _ => ?_, fun hc => absurd hdeg hc⟩
    · intro r hr
      rw [ScanApi.crop_from_center, if_pos hdeg] at hr
      cases hr
    · rw [ScanApi.crop_from_center, if_pos hdeg]
  · refine ⟨?_, fun hc => absurd hc hdeg, fun _ => ?_⟩
    · intro r hr
      rw [ScanApi.crop_from_center, if_neg hdeg] at hr
      cases hr
      have hl := clamp_bounds (Int.tdiv (2 * ((img.w : ℤ) / 2) - cw + 2 * ox) 2) (img.w : ℤ) hw
      have hr2 := clamp_bounds (Int.tdiv (2 * ((img.w : ℤ) / 2) - cw + 2 * ox) 2 + cw)
        (img.w : ℤ) hw
      have ht := clamp_bounds (Int.tdiv (2 * ((img.h : ℤ) / 2) - ch + 2 * oy) 2) (img.h : ℤ) hh
      have hb := clamp_bounds (Int.tdiv (2 * ((img.h : ℤ) / 2) - ch + 2 * oy) 2 + ch)
        (img.h : ℤ) hh
      simp only [ScanApi.clampedRect, not_or, not_le] at hdeg ⊢
      exact ⟨hl.1, hdeg.1, hr2.2, ht.1, hdeg.2, hb.2⟩
    · rw [ScanApi.crop_from_center, if_neg hdeg]

/-- Reduction of the scan_api control loop body at the `awb_mode` key on a
string value: only the `_awb_mode_value` translation decides what happens. -/
lemma applyEntry_awb_str (m : DevMap) (s : String) :
    ScanApi.applyEntry m ("awb_mode") (.vstr s) =
      (match ScanApi.awb_mode_value (.vstr s) with
        | none => Except.ok m
        | some w => Except.ok (dictSet m ("AwbMode") w)) := rfl

/-- Reduction of the scan_api control loop body at the `noise_reduction_mode` key
on a string value. -/
lemma applyEntry_nr_str (m : DevMap) (s : String) :
    ScanApi.applyEntry m ("noise_reduction_mode") (.vstr s) =
      (match ScanApi.nr_mode_value (.vstr s) with
        | none => Except.ok m
        | some w => Except.ok (dictSet m ("NoiseReductionMode") w)) := rfl

/-- Reduction of the scan_api control loop body at the `af_mode` key on a string
value: the translated value is applied unconditionally. -/
lemma applyEntry_af_str (m : DevMap) (s : String) :
    ScanApi.applyEntry m ("af_mode") (.vstr s) =
      Except.ok (dictSet m ("AfMode") (ScanApi.af_mode_value (.vstr s))) := rfl

/-- Reduction of the scan_api control loop body at the `af_trigger` key on a
string value: the translated value is applied unconditionally. -/
lemma applyEntry_aft_str (m : DevMap) (s : String) :
    ScanApi.applyEntry m ("af_trigger") (.vstr s) =
      Except.ok (dictSet m ("AfTrigger") (ScanApi.af_trigger_value (.vstr s))) := rfl

/-- C3 counterexample: an unrecognized `af_mode` string is not dropped — the
translated map applies the raw string under the `AfMode` key, so the device
receives the unrecognized value, contrary to the claim that every enum-valued
control drops unknown names. -/
theorem C3_af_mode_not_dropped_cex :
    ScanApi.set_controls [("af_mode", PyVal.vstr ("bogus"))] =
      .ok (some [("AfMode", PyVal.vstr ("bogus"))]) := rfl

/-- C3 amended: in scan_api, unknown `awb_mode` and `noise_reduction_mode`
names are dropped silently (the key is not applied), but unknown `af_mode`
and `af_trigger` names pass through verbatim; an input whose translation is
empty performs no device call; and in camera_view even `awb_mode` and
`noise_reduction_mode` strings are passed to the device raw, recognized or
not. -/
theorem C3_enum_dropping :
    (∀ (m : DevMap) (s : String),
        pyLower (pyStrip s) ∉ (["auto", "incandescent", "tungsten", "fluorescent",
          "indoor", "daylight", "cloudy", "shade"] : List String) →
        ScanApi.applyEntry m ("awb_mode") (.vstr s) = .ok m) ∧
    (∀ (m : DevMap) (s : String),
        pyLower (pyStrip s) ∉ (["off", "fast", "high_quality", "minimal", "zsl"] :
          List String) →
        ScanApi.applyEntry m ("noise_reduction_mode") (.vstr s) = .ok m) ∧
    (∀ (m : DevMap) (s : String),
        pyLower (pyStrip s) ∉ (["manual", "auto", "continuous"] : List String) →
        ScanApi.applyEntry m ("af_mode") (.vstr s) =
          .ok (dictSet m ("AfMode") (.vstr s))) ∧
    (∀ (m : DevMap) (s : String),
        pyLower (pyStrip s) ∉ (["start", "cancel"] : List String) →
        ScanApi.applyEntry m ("af_trigger") (.vstr s) =
          .ok (dictSet m ("AfTrigger") (.vstr s))) ∧
    (∀ ctrl, ScanApi.set_controls_fold ctrl [] = .ok [] →
        ScanApi.set_controls ctrl = .ok none) ∧
    (∀ (m : DevMap) (s : String),
        CameraView.applyEntry m ("awb_mode") (.vstr s) =
          .ok (dictSet m ("AwbMode") (.vstr s))) ∧
    (∀ (m : DevMap) (s : String),
        CameraView.applyEntry m ("noise_reduction_mode") (.vstr s) =
          .ok (dictSet m ("NoiseReductionMode") (.vstr s))) := by
  refine ⟨?_, ?_, ?_, ?_, ?_, fun m s => rfl, fun m s => rfl⟩
  · intro m s hn
    have h1 : pyLower (pyStrip s) ≠ "auto" := fun he => hn (by rw [he]; decide)
    have h2 : pyLower (pyStrip s) ≠ "incandescent" := fun he => hn (by rw [he]; decide)
    have h3 : pyLower (pyStrip s) ≠ "tungsten" := fun he => hn (by rw [he]; decide)
    have h4 : pyLower (pyStrip s) ≠ "fluorescent" := fun he => hn (by rw [he]; decide)
    have h5 : pyLower (pyStrip s) ≠ "indoor" := fun he => hn (by rw [he]; decide)
    have h6 : pyLower (pyStrip s) ≠ "daylight" := fun he => hn (by rw [he]; decide)
    have h7 : pyLower (pyStrip s) ≠ "cloudy" := fun he => hn (by rw [he]; decide)
    have h8 : pyLower (pyStrip s) ≠ "shade" := fun he => hn (by rw [he]; decide)
    rw [applyEntry_awb_str]
    have hv : ScanApi.awb_mode_value (.vstr s) = none := by
      simp only [ScanApi.awb_mode_value]
      simp [h1, h2, h3, h4, h5, h6, h7, h8]
    rw [hv]
  · intro m s hn
    have h1 : pyLower (pyStrip s) ≠ "off" := fun he => hn (by rw [he]; decide)
    have h2 : pyLower (pyStrip s) ≠ "fast" := fun he => hn (by rw [he]; decide)
    have h3 : pyLower (pyStrip s) ≠ "high_quality" := fun he => hn (by rw [he]; decide)
    have h4 : pyLower (pyStrip s) ≠ "minimal" := fun he => hn (by rw [he]; decide)
    have h5 : pyLower (pyStrip s) ≠ "zsl" := fun he => hn (by rw [he]; decide)
    rw [applyEntry_nr_str]
    have hv : ScanApi.nr_mode_value (.vstr s) = none := by
      simp only [ScanApi.nr_mode_value]
      simp [h1, h2, h3, h4, h5]
    rw [hv]
  · intro m s hn
    have h1 : pyLower (pyStrip s) ≠ "manual" := fun he => hn (by rw [he]; decide)
    have h2 : pyLower (pyStrip s) ≠ "auto" := fun he => hn (by rw [he]; decide)
    have h3 : pyLower (pyStrip s) ≠ "continuous" := fun he => hn (by rw [he]; decide)
    rw [applyEntry_af_str]
    have hv : ScanApi.af_mode_value (.vstr s) = .vstr s := by
      simp only [ScanApi.af_mode_value]
      simp [h1, h2, h3]
    rw [hv]
  · intro m s hn
    have h1 : pyLower (pyStrip s) ≠ "start" := fun he => hn (by rw [he]; decide)
    have h2 : pyLower (pyStrip s) ≠ "cancel" := fun he => hn (by rw [he]; decide)
    rw [applyEntry_aft_str]
    have hv : ScanApi.af_trigger_value (.vstr s) = .vstr s := by
      simp only [ScanApi.af_trigger_value]
      simp [h1, h2]
    rw [hv]
  · intro ctrl hc
    unfold ScanApi.set_controls
    rw [hc]
    rfl

/-- C3 witness: the amended statement evaluated at an unrecognized name
"bogus" against the empty device map, plus the empty-input no-op. -/
theorem C3_enum_dropping_witness :
    ScanApi.applyEntry [] ("awb_mode") (.vstr ("bogus")) = .ok [] ∧
    ScanApi.applyEntry [] ("noise_reduction_mode") (.vstr ("bogus")) = .ok [] ∧
    ScanApi.applyEntry [] ("af_mode") (.vstr ("bogus")) =
      .ok (dictSet [] ("AfMode") (.vstr ("bogus"))) ∧
    ScanApi.applyEntry [] ("af_trigger") (.vstr ("bogus")) =
      .ok (dictSet [] ("AfTrigger") (.vstr ("bogus"))) ∧
    ScanApi.set_controls [] = .ok none ∧
    CameraView.applyEntry [] ("awb_mode") (.vstr ("bogus")) =
      .ok (dictSet [] ("AwbMode") (.vstr ("bogus"))) ∧
    CameraView.applyEntry [] ("noise_reduction_mode") (.vstr ("bogus")) =
      .ok (dictSet [] ("NoiseReductionMode") (.vstr ("bogus"))) :=
  ⟨C3_enum_dropping.1 [] ("bogus") (by decide),
   C3_enum_dropping.2.1 [] ("bogus") (by decide),
   C3_enum_dropping.2.2.1 [] ("bogus") (by decide),
   C3_enum_dropping.2.2.2.1 [] ("bogus") (by decide),
   C3_enum_dropping.2.2.2.2.1 [] rfl,
   C3_enum_dropping.2.2.2.2.2.1 [] ("bogus"),
   C3_enum_dropping.2.2.2.2.2.2 [] ("bogus")⟩

/-- With no acknowledgment line in the stream, the read loop always ends in
`TimeoutError` (stated over a fuel bound on the remaining time so induction
applies). -/
lemma read_until_ok_no_ack (lines : ℕ → Option (List ℕ)) (dur : ℕ → ℕ) (timeout : ℕ)
    (hno : ∀ k l, lines k = some l → ScanApi.isAckLine l = false) :
    ∀ n k t, timeout - t ≤ n →
      (ScanApi.read_until_ok lines dur timeout k t).1 = .timedOut := by
  intro n
  induction n with
  | zero =>
    intro k t ht
    unfold ScanApi.read_until_ok
    rw [dif_neg (by omega)]
  | succ n ih =>
    intro k t ht
    unfold ScanApi.read_until_ok
    by_cases hlt : t < timeout
    · rw [dif_pos hlt]
      cases hl : lines k with
      | none => exact ih (k + 1) (t + dur k + 1) (by omega)
      | some l =>
        simp only [hno k l hl, Bool.false_eq_true, if_false]
        exact ih (k + 1) (t + dur k + 1) (by omega)
    · rw [dif_neg hlt]

/-- The elapsed time on exit stays below `timeout` plus the longest single
read, for any starting point below that bound. -/
lemma read_until_ok_time_bound (lines : ℕ → Option (List ℕ)) (dur : ℕ → ℕ)
    (timeout D : ℕ) (hD : ∀ k, dur k + 1 ≤ D) :
    ∀ n k t, timeout - t ≤ n → t < timeout + D →
      (ScanApi.read_until_ok lines dur timeout k t).2.2 < timeout + D := by
  intro n
  induction n with
  | zero =>
    intro k t ht ht2
    unfold ScanApi.read_until_ok
    rw [dif_neg (by omega)]
    exact ht2
  | succ n ih =>
    intro k t ht ht2
    unfold ScanApi.read_until_ok
    by_cases hlt : t < timeout
    · rw [dif_pos hlt]
      have hk := hD k
      cases hl : lines k with
      | none => exact ih (k + 1) (t + dur k + 1) (by omega) (by omega)
      | some l =>
        cases ha : ScanApi.isAckLine l with
        | true =>
          simp only [ha, if_true]
          show t + dur k + 1 < timeout + D
          omega
        | false =>
          simp only [ha, Bool.false_eq_true, if_false]
          exact ih (k + 1) (t + dur k + 1) (by omega) (by omega)
    · rw [dif_neg hlt]
      exact ht2

/-- C5: when no response line is (or ends in) the acknowledgment token, the
acknowledgment wait always terminates in a `TimeoutError` — it is a total
function even on a transport that never produces bytes — with elapsed time
bounded by the timeout plus one read; and `send_commands` then writes the
failing command exactly once, propagating the timeout without retrying it
and without sending the remaining commands. -/
theorem C5_ack_timeout_bounded (lines : ℕ → Option (List ℕ)) (dur : ℕ → ℕ)
    (timeout D : ℕ) (hD : ∀ k, dur k + 1 ≤ D)
    (hno : ∀ k l, lines k = some l → ScanApi.isAckLine l = false) :
    (∀ k t, (ScanApi.read_until_ok lines dur timeout k t).1 = .timedOut) ∧
    (∀ k, (ScanApi.read_until_ok lines dur timeout k 0).2.2 < timeout + D) ∧
    (∀ cmds k, ScanApi.send_commands lines dur timeout true cmds k =
        (cmds.take 1, cmds.isEmpty)) := by
  have h1 : ∀ k t, (ScanApi.read_until_ok lines dur timeout k t).1 = .timedOut :=
    fun k t => read_until_ok_no_ack lines dur timeout hno (timeout - t) k t le_rfl
  have hD0 := hD 0
  refine ⟨h1, ?_, ?_⟩
  · intro k
    exact read_until_ok_time_bound lines dur timeout D hD (timeout - 0) k 0 le_rfl (by omega)
  · intro cmds k
    cases cmds with
    | nil => rfl
    | cons c rest =>
      have hout := h1 k 0
      unfold ScanApi.send_commands
      rcases hr : ScanApi.read_until_ok lines dur timeout k 0 with ⟨out, k2, t2⟩
      rw [hr] at hout
      simp only at hout
      subst hout
      simp [List.take, List.isEmpty]

/-- C5 witness: a transport producing no bytes at all; the read times out
within the bound and the single command is written once, unacknowledged. -/
theorem C5_ack_timeout_bounded_witness :
    (ScanApi.read_until_ok (fun _ => none) (fun _ => 0) 5 0 0).1 = .timedOut ∧
    (ScanApi.read_until_ok (fun _ => none) (fun _ => 0) 5 0 0).2.2 < 5 + 1 ∧
    ScanApi.send_commands (fun _ => none) (fun _ => 0) 5 true [("M400" : String)] 0 =
      ([("M400" : String)], false) := by
  obtain ⟨a, b, c⟩ := C5_ack_timeout_bounded (fun _ => none) (fun _ => 0) 5 1
    (fun _ => Nat.le_refl 1) (fun k l hkl => by cases hkl)
  exact ⟨a 0 0, b 0, c [("M400" : String)] 0⟩

/-- Updating a consumer status and reading it back. -/
lemma wlookup_wset_eq (l : List (ℕ × ScanApi.WStatus)) (w : ℕ) (st : ScanApi.WStatus) :
    ScanApi.wlookup (ScanApi.wset l w st) w = st := by
  induction l with
  | nil => simp [ScanApi.wset, ScanApi.wlookup]
  | cons p rest ih =>
    obtain ⟨w2, st2⟩ := p
    by_cases hw : w2 = w
    · simp [ScanApi.wset, ScanApi.wlookup, hw]
    · simp [ScanApi.wset, ScanApi.wlookup, hw, ih]

/-- Updating one consumer leaves the others' statuses unchanged. -/
lemma wlookup_wset_ne (l : List (ℕ × ScanApi.WStatus)) (w w2 : ℕ) (st : ScanApi.WStatus)
    (hne : w ≠ w2) :
    ScanApi.wlookup (ScanApi.wset l w st) w2 = ScanApi.wlookup l w2 := by
  induction l with
  | nil => simp [ScanApi.wset, ScanApi.wlookup, hne]
  | cons p rest ih =>
    obtain ⟨w3, st3⟩ := p
    by_cases hw : w3 = w
    · subst hw
      simp [ScanApi.wset, ScanApi.wlookup, hne]
    · by_cases hw2 : w3 = w2
      · simp [ScanApi.wset, ScanApi.wlookup, hw, hw2, Ne.symm hne]
      · simp [ScanApi.wset, ScanApi.wlookup, hw, hw2, ih]

/-- Looking a consumer up after `notify_all` notifies its looked-up status. -/
lemma wlookup_notifyAll (l : List (ℕ × ScanApi.WStatus)) (w : ℕ) :
    ScanApi.wlookup (l.map (fun p => (p.1, ScanApi.notifyAll p.2))) w =
      ScanApi.notifyAll (ScanApi.wlookup l w) := by
  induction l with
  | nil => simp [ScanApi.wlookup, ScanApi.notifyAll]
  | cons p rest ih =>
    obtain ⟨w2, st2⟩ := p
    by_cases hw : w2 = w
    · simp [ScanApi.wlookup, hw]
    · simp [ScanApi.wlookup, hw, ih]

/-- One broadcast step preserves the invariant. -/
lemma bcStep_inv (s s2 : ScanApi.BCState) (e : ScanApi.BCEvent)
    (hinv : ScanApi.bcInv s) (hstep : ScanApi.bcStep s e = some s2) : ScanApi.bcInv s2 := by
  cases e with
  | publish =>
    simp only [ScanApi.bcStep, Option.some.injEq] at hstep
    subst hstep
    intro w
    have hw := hinv w
    simp only [wlookup_notifyAll]
    cases hst : ScanApi.wlookup s.waiters w with
    | idle => simp [ScanApi.notifyAll, ScanApi.wInv]
    | blocked c =>
      rw [hst] at hw
      simp only [ScanApi.wInv] at hw
      simp only [ScanApi.notifyAll, ScanApi.wInv]
      omega
    | notified c =>
      rw [hst] at hw
      simp only [ScanApi.wInv] at hw
      simp only [ScanApi.notifyAll, ScanApi.wInv]
      omega
    | done c g =>
      rw [hst] at hw
      simp only [ScanApi.wInv] at hw
      simp only [ScanApi.notifyAll, ScanApi.wInv]
      omega
  | beginWait w =>
    simp only [ScanApi.bcStep] at hstep
    cases hst : ScanApi.wlookup s.waiters w with
    | idle =>
      rw [hst] at hstep
      simp only [Option.some.injEq] at hstep
      subst hstep
      intro w2
      by_cases hw : w = w2
      · subst hw
        rw [wlookup_wset_eq]
        simp [ScanApi.wInv]
      · rw [wlookup_wset_ne _ _ _ _ hw]
        exact hinv w2
    | blocked c => rw [hst] at hstep; cases hstep
    | notified c => rw [hst] at hstep; cases hstep
    | done c g =>
      rw [hst] at hstep
      simp only [Option.some.injEq] at hstep
      subst hstep
      intro w2
      by_cases hw : w = w2
      · subst hw
        rw [wlookup_wset_eq]
        simp [ScanApi.wInv]
      · rw [wlookup_wset_ne _ _ _ _ hw]
        exact hinv w2
  | wake w =>
    simp only [ScanApi.bcStep] at hstep
    cases hst : ScanApi.wlookup s.waiters w with
    | idle => rw [hst] at hstep; cases hstep
    | blocked c => rw [hst] at hstep; cases hstep
    | done c g => rw [hst] at hstep; cases hstep
    | notified c =>
      rw [hst] at hstep
      simp only [Option.some.injEq] at hstep
      subst hstep
      have hw := hinv w
      rw [hst] at hw
      simp only [ScanApi.wInv] at hw
      intro w2
      by_cases hww : w = w2
      · subst hww
        rw [wlookup_wset_eq]
        exact ⟨hw, le_refl _⟩
      · rw [wlookup_wset_ne _ _ _ _ hww]
        exact hinv w2

/-- Executing any event list preserves the invariant. -/
lemma bcExec_inv : ∀ (evs : List ScanApi.BCEvent) (s s2 : ScanApi.BCState),
    ScanApi.bcInv s → ScanApi.bcExec s evs = some s2 → ScanApi.bcInv s2 := by
  intro evs
  induction evs with
  | nil =>
    intro s s2 hinv hex
    simp only [ScanApi.bcExec, Option.some.injEq] at hex
    subst hex
    exact hinv
  | cons e es ih =>
    intro s s2 hinv hex
    simp only [ScanApi.bcExec] at hex
    cases hst : ScanApi.bcStep s e with
    | none => rw [hst] at hex; cases hex
    | some s3 =>
      rw [hst] at hex
      exact ih s3 s2 (bcStep_inv s s3 e hinv hst) hex

/-- The fresh broadcast satisfies the invariant. -/
lemma bcInv_init : ScanApi.bcInv ScanApi.initBC := by
  intro w
  simp [ScanApi.initBC, ScanApi.wlookup, ScanApi.wInv]

/-- C7: in every reachable broadcast state, a consumer that returned from
`awaitNext` holds a frame published strictly after its wait began (and no
later than the current publish count) — never a frame published before its
call — and a `publish` step notifies every currently blocked consumer. -/
theorem C7_broadcast_no_stale (evs : List ScanApi.BCEvent) (s : ScanApi.BCState)
    (hex : ScanApi.bcExec ScanApi.initBC evs = some s) :
    (∀ w since got, ScanApi.wlookup s.waiters w = .done since got →
        since < got ∧ got ≤ s.pubCount) ∧
    (∀ w c s2, ScanApi.wlookup s.waiters w = .blocked c →
        ScanApi.bcStep s .publish = some s2 →
        ScanApi.wlookup s2.waiters w = .notified c) := by
  have hinv := bcExec_inv evs ScanApi.initBC s bcInv_init hex
  constructor
  · intro w since got hw
    have := hinv w
    rw [hw] at this
    exact this
  · intro w c s2 hw hstep
    simp only [ScanApi.bcStep, Option.some.injEq] at hstep
    subst hstep
    rw [wlookup_notifyAll, hw]
    rfl

/-- C7 witness: a consumer begins waiting with no frame published, one frame
is then published and the consumer wakes; it reads frame 1, published after
its wait began (0 < 1). -/
theorem C7_broadcast_no_stale_witness :
    (0 : ℕ) < 1 ∧
      1 ≤ (ScanApi.BCState.mk 1 [(0, ScanApi.WStatus.done 0 1)]).pubCount :=
  (C7_broadcast_no_stale [.beginWait 0, .publish, .wake 0]
      ⟨1, [(0, ScanApi.WStatus.done 0 1)]⟩ (by decide)).1 0 0 1 (by decide)

/-- Decimal digit characters determine the digit. -/
lemma digitChar_inj_lt (a b : ℕ) (ha : a < 10) (hb : b < 10)
    (h : Nat.digitChar a = Nat.digitChar b) : a = b := by
  have key : ∀ x y : Fin 10, Nat.digitChar x.val = Nat.digitChar y.val → x = y := by decide
  exact congrArg Fin.val (key ⟨a, ha⟩ ⟨b, hb⟩ h)

/-- The six-digit microsecond field is injective below `10^6`. -/
lemma pad6_inj (m u : ℕ) (hm : m < 1000000) (hu : u < 1000000)
    (h : ScanApi.pad6 m = ScanApi.pad6 u) : m = u := by
  simp only [ScanApi.pad6, List.cons.injEq, and_true] at h
  obtain ⟨h1, h2, h3, h4, h5, h6⟩ := h
  have d10 : (0 : ℕ) < 10 := by norm_num
  have e1 := digitChar_inj_lt _ _ (Nat.mod_lt _ d10) (Nat.mod_lt _ d10) h1
  have e2 := digitChar_inj_lt _ _ (Nat.mod_lt _ d10) (Nat.mod_lt _ d10) h2
  have e3 := digitChar_inj_lt _ _ (Nat.mod_lt _ d10) (Nat.mod_lt _ d10) h3
  have e4 := digitChar_inj_lt _ _ (Nat.mod_lt _ d10) (Nat.mod_lt _ d10) h4
  have e5 := digitChar_inj_lt _ _ (Nat.mod_lt _ d10) (Nat.mod_lt _ d10) h5
  have e6 := digitChar_inj_lt _ _ (Nat.mod_lt _ d10) (Nat.mod_lt _ d10) h6
  omega

/-- C8 counterexample: the `/capture?save=1` persistence path of
`scan_api/app.py` (same naming as the macro's save path) names the file
`img_<HHMMSS_microsec>.jpg`: it does not start with the owning session's
label `rpi_cam0` followed by an underscore, so it is not of the claimed
`<label>_<timestamp>.jpg` shape. -/
theorem C8_endpoint_naming_cex :
    ScanApi.endpoint_capture_name
        { year := 2025, month := 9, day := 1, hour := 12, minute := 0, second := 0,
          micro := 1 } = "img_120000_000001.jpg" ∧
    (ScanApi.endpoint_capture_name
        { year := 2025, month := 9, day := 1, hour := 12, minute := 0, second := 0,
          micro := 1 }).take 9 ≠ "rpi_cam0_" := by
  constructor
  · rfl
  · decide

/-- C8 amended: files persisted by the sessions' own capture-to-file
operation are named `<label>_<timestamp>.jpg` with a microsecond-resolution
timestamp, and within one second two captures with different microsecond
fields always get distinct names; the HTTP capture/macro save paths instead
use an `img_` prefix without the session label. -/
theorem C8_capture_naming :
    (∀ (label : String) (t : ScanApi.PyTimestamp),
        ScanApi.capture_file_name label t =
          label ++ "_" ++ ScanApi.strftime_full t ++ ".jpg") ∧
    (∀ t : ScanApi.PyTimestamp,
        ScanApi.endpoint_capture_name t = "img_" ++ ScanApi.strftime_hms t ++ ".jpg") ∧
    (∀ (label : String) (t u : ScanApi.PyTimestamp),
        t.year = u.year → t.month = u.month → t.day = u.day → t.hour = u.hour →
        t.minute = u.minute → t.second = u.second →
        t.micro < 1000000 → u.micro < 1000000 → t.micro ≠ u.micro →
        ScanApi.capture_file_name label t ≠ ScanApi.capture_file_name label u) := by
  refine ⟨fun label t => rfl, fun t => rfl, ?_⟩
  intro label t u hy hmo hd hh hmi hs hmt hmu hne heq
  apply hne
  have hdata := congrArg String.data heq
  have hmk : ∀ l : List Char, (String.mk l).data = l := fun l => rfl
  simp only [ScanApi.capture_file_name, ScanApi.strftime_full, String.data_append,
    hmk, List.append_assoc] at hdata
  have hpre : ScanApi.tsPrefixChars t = ScanApi.tsPrefixChars u := by
    simp [ScanApi.tsPrefixChars, hy, hmo, hd, hh, hmi, hs]
  rw [hpre] at hdata
  have h2 := List.append_cancel_left hdata
  have h3 := List.append_cancel_left h2
  have h4 := List.append_cancel_left h3
  have h5 := List.append_inj h4 rfl
  exact pad6_inj _ _ hmt hmu h5.1

/-- C8 witness: two captures in the same second with microseconds 1 and 2
from the session labelled `rpi_cam0` persist under distinct names. -/
theorem C8_capture_naming_witness :
    ScanApi.capture_file_name ("rpi_cam0")
        { year := 2025, month := 9, day := 1, hour := 12, minute := 0, second := 0,
          micro := 1 } ≠
      ScanApi.capture_file_name ("rpi_cam0")
        { year := 2025, month := 9, day := 1, hour := 12, minute := 0, second := 0,
          micro := 2 } :=
  C8_capture_naming.2.2 ("rpi_cam0")
    { year := 2025, month := 9, day := 1, hour := 12, minute := 0, second := 0,
      micro := 1 }
    { year := 2025, month := 9, day := 1, hour := 12, minute := 0, second := 0,
      micro := 2 }
    rfl rfl rfl rfl rfl rfl (by decide) (by decide) (by decide)

/-- C9: if the motion phase of the move-settle-capture macro fails — either
`_ensure_serial` or the acknowledged command send raises — the handler
propagates that error having performed no camera action at all: no controls
applied, no settle, no capture, no save. -/
theorem C9_motion_failure_aborts (req : ScanApi.MacroReq) (env : ScanApi.MacroEnv)
    (e : String)
    (h : env.serialConnect = .error e ∨
      (env.serialConnect = .ok () ∧ env.sendCmds = .error e)) :
    (ScanApi.move_and_capture req env).2 = [] ∧
    (ScanApi.move_and_capture req env).1 = .error e := by
  cases h with
  | inl h1 => simp [ScanApi.move_and_capture, h1]
  | inr h2 =>
    obtain ⟨hc, hs⟩ := h2
    simp [ScanApi.move_and_capture, hc, hs]

/-- C9 witness: a macro request whose serial connect fails performs no camera
action. -/
theorem C9_motion_failure_aborts_witness :
    (ScanApi.move_and_capture
        { x := none, y := none, z := none, feed_xy := 1000, feed_z := 100, wait := true,
          settle := 1, hasCamControls := true, save := true }
        { serialConnect := .error ("no port"), sendCmds := .ok (), stillOk := true }).2 =
      [] :=
  (C9_motion_failure_aborts
      { x := none, y := none, z := none, feed_xy := 1000, feed_z := 100, wait := true,
        settle := 1, hasCamControls := true, save := true }
      { serialConnect := .error ("no port"), sendCmds := .ok (), stillOk := true }
      ("no port") (Or.inl rfl)).1

/-- C10: an fps request of 1 or below yields the one-second minimum interval
(`max(1, fps)`); a frame arriving less than the interval after the last
yielded frame is skipped without output; and consequently consecutive yielded
frames — starting from any `last`, in particular the generator's initial
`0.0` — are always at least the interval apart, so the stream never yields
faster than the requested rate. -/
theorem C10_stream_throttle (fps : ℤ) :
    (fps ≤ 1 → ScanApi.min_interval fps = 1) ∧
    (∀ (last now : ℚ) (f : List ℕ) (rest : List (ℚ × Option (List ℕ))),
        now - last < ScanApi.min_interval fps →
        ScanApi.mjpeg_yield_times (ScanApi.min_interval fps) last ((now, some f) :: rest) =
          ScanApi.mjpeg_yield_times (ScanApi.min_interval fps) last rest) ∧
    (∀ (last : ℚ) (xs : List (ℚ × Option (List ℕ))),
        ScanApi.Spaced (ScanApi.min_interval fps) last
          (ScanApi.mjpeg_yield_times (ScanApi.min_interval fps) last xs)) := by
  refine ⟨?_, ?_, ?_⟩
  · intro hfps
    unfold ScanApi.min_interval
    rw [max_eq_left hfps]
    norm_num
  · intro last now f rest hlt
    simp [ScanApi.mjpeg_yield_times, hlt]
  · intro last xs
    induction xs generalizing last with
    | nil => exact trivial
    | cons p rest ih =>
      obtain ⟨now, f⟩ := p
      cases f with
      | none =>
        simpa only [ScanApi.mjpeg_yield_times] using ih last
      | some fr =>
        by_cases hlt : now - last < ScanApi.min_interval fps
        · simpa only [ScanApi.mjpeg_yield_times, if_pos hlt] using ih last
        · simp only [ScanApi.mjpeg_yield_times, if_neg hlt]
          exact ⟨le_of_not_lt hlt, ih now⟩

/-- C10 witness: a requested fps of 0 is throttled as 1 frame per second. -/
theorem C10_stream_throttle_witness : ScanApi.min_interval 0 = 1 :=
  (C10_stream_throttle 0).1 (by decide)

/-- C6 witness: an oversized 200x40 crop request on a 100x80 image clamps to
the in-bounds rectangle (0,30)-(100,70), and a zero-width request degenerates
and returns the original image. -/
theorem C6_crop_from_center_safe_witness :
    ((0 : ℤ) ≤ ({ left := 0, top := 30, right := 100, bottom := 70 } : ScanApi.Rect).left ∧
      ({ left := 0, top := 30, right := 100, bottom := 70 } : ScanApi.Rect).left <
        ({ left := 0, top := 30, right := 100, bottom := 70 } : ScanApi.Rect).right ∧
      ({ left := 0, top := 30, right := 100, bottom := 70 } : ScanApi.Rect).right ≤
        ((100 : ℕ) : ℤ) ∧
      (0 : ℤ) ≤ ({ left := 0, top := 30, right := 100, bottom := 70 } : ScanApi.Rect).top ∧
      ({ left := 0, top := 30, right := 100, bottom := 70 } : ScanApi.Rect).top <
        ({ left := 0, top := 30, right := 100, bottom := 70 } : ScanApi.Rect).bottom ∧
      ({ left := 0, top := 30, right := 100, bottom := 70 } : ScanApi.Rect).bottom ≤
        ((80 : ℕ) : ℤ)) ∧
    ScanApi.crop_from_center { w := 100, h := 80 } 0 10 0 0 = .copyOriginal :=
  ⟨(C6_crop_from_center_safe { w := 100, h := 80 } 200 40 0 10).1
      { left := 0, top := 30, right := 100, bottom := 70 } (by decide),
   (C6_crop_from_center_safe { w := 100, h := 80 } 0 10 0 0).2.1 (by decide)⟩
